import Mathlib

set_option maxRecDepth 8000

/-!
Shallow embedding of `src/WiringHelper.py` (class `HarnessDigitalTwin`).

The Python code keeps a `networkx.DiGraph`: a dict of nodes (each with an
attribute dict) and, per ordered pair of node keys, at most one directed
edge with an attribute dict.  Dicts preserve insertion order, `add_node` /
`add_edge` merge the supplied keyword attributes into the existing dict,
and `add_edge` auto-creates missing endpoint nodes with an empty dict.

We model attribute dicts as records of `Option` fields (a `none` field is
an absent dict key), the node table and the edge table as insertion-ordered
association lists, and Python floats as rationals.
-/

/-- Node attribute dict.  `load_ecu_specs` sets `type="ECU"` (plus the raw
`specs` payload) on ECU nodes and `type="PIN"`, `max_current`, `voltage_ref`
on pin nodes; nodes auto-created by `add_edge` have every field absent. -/
structure NodeAttrs where
  type : Option String := none
  max_current : Option ℚ := none
  voltage_ref : Option ℚ := none
deriving DecidableEq, Repr

/-- Edge attribute dict.  `load_ecu_specs` sets `type="INTERNAL"` on
ECU-to-pin edges; `load_harness_netlist` sets the three wire fields. -/
structure EdgeAttrs where
  type : Option String := none
  gauge_awg : Option Int := none
  length_m : Option ℚ := none
  resistance_ohm_per_m : Option ℚ := none
deriving DecidableEq, Repr

/-- Merge for node dicts: a `some` field of `new` overwrites, a `none`
field leaves the old value (Python `dict.update` with keyword args). -/
def NodeAttrs.update (old new : NodeAttrs) : NodeAttrs where
  type := if new.type.isSome then new.type else old.type
  max_current := if new.max_current.isSome then new.max_current else old.max_current
  voltage_ref := if new.voltage_ref.isSome then new.voltage_ref else old.voltage_ref

/-- Merge for edge dicts, same convention as `NodeAttrs.update`. -/
def EdgeAttrs.update (old new : EdgeAttrs) : EdgeAttrs where
  type := if new.type.isSome then new.type else old.type
  gauge_awg := if new.gauge_awg.isSome then new.gauge_awg else old.gauge_awg
  length_m := if new.length_m.isSome then new.length_m else old.length_m
  resistance_ohm_per_m :=
    if new.resistance_ohm_per_m.isSome then new.resistance_ohm_per_m
    else old.resistance_ohm_per_m

/-- Insertion-ordered association-list lookup (Python dict access). -/
def lookupA {κ α : Type} [DecidableEq κ] (k : κ) : List (κ × α) → Option α
  | [] => none
  | (k₂, v) :: rest => if k₂ = k then some v else lookupA k rest

/-- Insertion-ordered association-list upsert: update the entry in place if
the key is present, else append it at the end (Python dict assignment). -/
def updA {κ α : Type} [DecidableEq κ] (k : κ) (f : α → α) (d : α) :
    List (κ × α) → List (κ × α)
  | [] => [(k, f d)]
  | (k₂, v) :: rest =>
      if k₂ = k then (k₂, f v) :: rest else (k₂, v) :: updA k f d rest

/-- The `networkx.DiGraph` held in `HarnessDigitalTwin.graph`: node table
and edge table, both insertion-ordered, keyed by node key resp. ordered
pair of node keys (a `DiGraph` holds at most one edge per ordered pair). -/
structure DiGraph where
  nodes : List (String × NodeAttrs)
  edges : List ((String × String) × EdgeAttrs)
deriving DecidableEq, Repr

/-- `HarnessDigitalTwin.__init__`: the empty graph. -/
def DiGraph.empty : DiGraph := ⟨[], []⟩

/-- `graph.add_node(key, **attrs)`: merge `attrs` into the node dict,
creating the node (at the end of the table) if absent. -/
def DiGraph.add_node (g : DiGraph) (key : String) (attrs : NodeAttrs) : DiGraph :=
  { g with nodes := updA key (fun old => old.update attrs) {} g.nodes }

/-- Auto-vivification inside `add_edge`: ensure a node exists, with an
empty attribute dict if it was absent, changing nothing otherwise. -/
def DiGraph.ensure_node (g : DiGraph) (key : String) : DiGraph :=
  { g with nodes := updA key (fun old => old) {} g.nodes }

/-- `graph.add_edge(u, v, **attrs)`: create missing endpoints, then merge
`attrs` into the edge dict for the ordered pair `(u, v)`, creating the
edge (at the end of the table) if absent. -/
def DiGraph.add_edge (g : DiGraph) (u v : String) (attrs : EdgeAttrs) : DiGraph :=
  let g := (g.ensure_node u).ensure_node v
  { g with edges := updA (u, v) (fun old => old.update attrs) {} g.edges }

/-- `graph.nodes[key]` / `key in graph`. -/
def DiGraph.get_node (g : DiGraph) (key : String) : Option NodeAttrs :=
  lookupA key g.nodes

/-- `graph.get_edge_data(u, v)`. -/
def DiGraph.get_edge_data (g : DiGraph) (u v : String) : Option EdgeAttrs :=
  lookupA (u, v) g.edges

/-- Successors of `u` in insertion order, as iterated by the path search. -/
def DiGraph.successors (g : DiGraph) (u : String) : List String :=
  g.edges.filterMap (fun e => if e.1.1 = u then some e.1.2 else none)

/-! ## Input records -/

/-- One entry of the `pins` list of an ECU descriptor. -/
structure PinSpec where
  pin_number : String
  function : String
  type : String
  max_current_amps : ℚ
  voltage_ref : ℚ
deriving DecidableEq, Repr

/-- The JSON ECU descriptor consumed by `load_ecu_specs`. -/
structure EcuSpec where
  ecu_id : String
  pins : List PinSpec
deriving DecidableEq, Repr

/-- One netlist connection record consumed by `load_harness_netlist`. -/
structure Connection where
  from_ : String
  to_ : String
  gauge : Int
  length_m : ℚ
  resistance_per_m : ℚ
deriving DecidableEq, Repr

/-! ## Loaders -/

/-- `load_ecu_specs`: one ECU node, then per pin a `PIN` node keyed
`"{ecu_id}:{pin_number}"` and an `INTERNAL` edge from the ECU to the pin.
(The `logging.info` call is observability only and is not modelled.) -/
def load_ecu_specs (g : DiGraph) (json_data : EcuSpec) : DiGraph :=
  let g := g.add_node json_data.ecu_id { type := some "ECU" }
  json_data.pins.foldl
    (fun g pin =>
      let pin_id := json_data.ecu_id ++ ":" ++ pin.pin_number
      let g := g.add_node pin_id
        { type := some "PIN", max_current := some pin.max_current_amps,
          voltage_ref := some pin.voltage_ref }
      g.add_edge json_data.ecu_id pin_id { type := some "INTERNAL" })
    g

/-- The wire attribute dict built for one connection record. -/
def wire_props (c : Connection) : EdgeAttrs :=
  { gauge_awg := some c.gauge, length_m := some c.length_m,
    resistance_ohm_per_m := some c.resistance_per_m }

/-- Processing of a single connection record inside `load_harness_netlist`:
the edge and its mirror, both carrying the same wire attributes. -/
def load_connection (g : DiGraph) (c : Connection) : DiGraph :=
  let g := g.add_edge c.from_ c.to_ (wire_props c)
  g.add_edge c.to_ c.from_ (wire_props c)

/-- `load_harness_netlist`: fold `load_connection` over the record list.
The Python body performs no validation of gauge, length or resistance. -/
def load_harness_netlist (g : DiGraph) (netlist_data : List Connection) : DiGraph :=
  netlist_data.foldl load_connection g

/-! ## Path resolver (`nx.shortest_path` call in `validate_feature_change`) -/

/-- The two failure modes of `nx.shortest_path(G, source, target)`:
`NodeNotFound` when `source` or `target` is not in the graph (an exception
the caller does NOT catch), `NetworkXNoPath` when both are present but no
directed path connects them (caught at line 60 of the source). -/
inductive PathError
  | nodeNotFound
  | noPath
deriving DecidableEq, Repr

/-- Breadth-first search working queue: each entry is a reversed path from
the source; a node is marked visited when it is enqueued, so each node is
expanded at most once and the first dequeued path reaching `target` is a
shortest one, with ties broken by insertion-order neighbor iteration. -/
def bfs (g : DiGraph) (target : String) :
    Nat → List (List String) → List String → Option (List String)
  | 0, _, _ => none
  | _ + 1, [], _ => none
  | fuel + 1, p :: queue, visited =>
    match p with
    | [] => none
    | u :: _ =>
      if u = target then some p.reverse
      else
        let st := (g.successors u).foldl
          (fun (st : List (List String) × List String) v =>
            if st.2.contains v then st else (st.1 ++ [v :: p], v :: st.2))
          (queue, visited)
        bfs g target fuel st.1 st.2

/-- `nx.shortest_path(self.graph, source, target)`: raises `NodeNotFound`
when either endpoint key is absent, otherwise returns a shortest directed
path from `source` to `target` (found here by breadth-first search, all
edges having equal weight) or raises `NetworkXNoPath` when none exists. -/
def shortest_path (g : DiGraph) (source target : String) :
    Except PathError (List String) :=
  if (g.get_node source).isNone || (g.get_node target).isNone then
    .error .nodeNotFound
  else
    match bfs g target (g.nodes.length + 1) [[source]] [source] with
    | some p => .ok p
    | none => .error .noPath

/-! ## Physics evaluation and verdict -/

/-- The `results` dict built at lines 79-97 of the source.  The two
`checks` strings record the Rule A and Rule B outcomes in order; the
numeric interpolation inside the Rule B failure message is elided. -/
structure Results where
  target_pin : String
  load_request : ℚ
  pin_capacity : ℚ
  voltage_drop : ℚ
  checks : List String
deriving DecidableEq, Repr

/-- Outcome of one `validate_feature_change` call: the verdict dict, the
caught-no-path failure dict `{"status": "FAIL", "reason": ...}`, or an
uncaught Python exception propagating out of the method (a crash). -/
inductive ValidationResult
  | ok (r : Results)
  | failNoPath (status reason : String)
  | crash (exc : String)
deriving DecidableEq, Repr

/-- Consecutive node pairs of a path, the `(path[i], path[i+1])` pairs
iterated by the resistance loop at lines 69-74. -/
def consecutivePairs : List String → List (String × String)
  | a :: b :: rest => (a, b) :: consecutivePairs (b :: rest)
  | _ => []

/-- The resistance accumulation loop (lines 68-74): for each consecutive
pair, skip the edge when its `type` attribute equals `"INTERNAL"`, else
add `resistance_ohm_per_m * length_m` to the accumulator.  A missing edge
dict or a missing wire attribute raises (AttributeError / KeyError). -/
def resistance_loop (g : DiGraph) : List (String × String) → ℚ → Except String ℚ
  | [], acc => .ok acc
  | (u, v) :: rest, acc =>
    match g.get_edge_data u v with
    | none => .error "AttributeError"
    | some edge_data =>
      if edge_data.type = some "INTERNAL" then
        resistance_loop g rest acc
      else
        match edge_data.resistance_ohm_per_m, edge_data.length_m with
        | some r, some l => resistance_loop g rest (acc + r * l)
        | _, _ => .error "KeyError"

/-- `validate_feature_change(load_node_id, new_current_draw)`, lines 49-99:
resolve a path from the load to the hardcoded target `"BCM_Gen2:Pin4"`
(only `NetworkXNoPath` is caught), take the last path node as the pin,
accumulate wire resistance, compute the voltage drop, and emit the verdict
with the two independent rule outcomes. -/
def validate_feature_change (g : DiGraph) (load_node_id : String)
    (new_current_draw : ℚ) : ValidationResult :=
  match shortest_path g load_node_id "BCM_Gen2:Pin4" with
  | .error .nodeNotFound => .crash "NodeNotFound"
  | .error .noPath => .failNoPath "FAIL" "No path to power source found."
  | .ok path =>
    let pin_node := path.getLastD ""
    match g.get_node pin_node with
    | none => .crash "KeyError"
    | some pin_specs =>
      match resistance_loop g (consecutivePairs path) 0 with
      | .error exc => .crash exc
      | .ok total_resistance =>
        let v_drop := new_current_draw * total_resistance
        match pin_specs.max_current with
        | none => .crash "KeyError"
        | some max_current =>
          .ok { target_pin := pin_node, load_request := new_current_draw,
                pin_capacity := max_current, voltage_drop := v_drop,
                checks :=
                  [(if new_current_draw > max_current then
                      "FAIL: Pin Overcurrent"
                    else "PASS: Current OK"),
                   (if v_drop > 0.5 then "FAIL: Voltage Drop High"
                    else "PASS: Voltage Drop OK")] }

/-- Method-level view of `validate_feature_change` threading the mutable
`self.graph` state: the body (lines 49-99) contains no call to `add_node`
or `add_edge` and no assignment to `self.graph`, so the translation of
every statement leaves the state component untouched. -/
def validate_feature_change_st (g : DiGraph) (load_node_id : String)
    (new_current_draw : ℚ) : DiGraph × ValidationResult :=
  (g, validate_feature_change g load_node_id new_current_draw)

/-! ## The mock dataset of the source file (lines 104-123) -/

/-- `bcm_specs` literal from the source. -/
def bcm_specs : EcuSpec :=
  { ecu_id := "BCM_Gen2",
    pins := [
      { pin_number := "Pin4", function := "Fog_Light_Front_L", type := "HSD",
        max_current_amps := 5, voltage_ref := 12 },
      { pin_number := "Pin5", function := "Logic_Low_Ref", type := "GND",
        max_current_amps := 0.5, voltage_ref := 0 }] }

/-- `harness_data` literal from the source. -/
def harness_data : List Connection :=
  [ { from_ := "BCM_Gen2:Pin4", to_ := "Splice_A22", gauge := 18,
      length_m := 1.5, resistance_per_m := 0.021 },
    { from_ := "Splice_A22", to_ := "Conn_Fog_L", gauge := 18,
      length_m := 0.5, resistance_per_m := 0.021 },
    { from_ := "Conn_Fog_L", to_ := "Lamp_Fog_L", gauge := 20,
      length_m := 0.2, resistance_per_m := 0.033 } ]

/-- The `twin` object after the two load calls of the execution section. -/
def twin : DiGraph :=
  load_harness_netlist (load_ecu_specs DiGraph.empty bcm_specs) harness_data

/-! ## Derived views and spec-side resolver policy -/

/-- The `type` attribute of a node, when both exist. -/
def node_type (g : DiGraph) (k : String) : Option String :=
  (g.get_node k).bind fun a => a.type

/-- The triple of physical wire attributes of an edge dict. -/
def phys (e : EdgeAttrs) : Option Int × Option ℚ × Option ℚ :=
  (e.gauge_awg, e.length_m, e.resistance_ohm_per_m)

/-- Physical attributes of the edge stored for the ordered pair `(u, v)`. -/
def physAt (g : DiGraph) (u v : String) : Option (Option Int × Option ℚ × Option ℚ) :=
  (g.get_edge_data u v).map phys

/-- The physical triple a connection record should produce. -/
def physTriple (c : Connection) : Option Int × Option ℚ × Option ℚ :=
  (some c.gauge, some c.length_m, some c.resistance_per_m)

/-- Breadth-first search identical to `bfs` except that it stops at the
first dequeued node whose `type` attribute is `"PIN"` instead of at a
fixed target key. -/
def bfs_pin (g : DiGraph) :
    Nat → List (List String) → List String → Option (List String)
  | 0, _, _ => none
  | _ + 1, [], _ => none
  | fuel + 1, p :: queue, visited =>
    match p with
    | [] => none
    | u :: _ =>
      if node_type g u = some "PIN" then some p.reverse
      else
        let st := (g.successors u).foldl
          (fun (st : List (List String) × List String) v =>
            if st.2.contains v then st else (st.1 ++ [v :: p], v :: st.2))
          (queue, visited)
        bfs_pin g fuel st.1 st.2

/-- Modelled from the spec: the resolver policy of spec section 4.4 —
breadth-first search from the load to the first node of kind `Pin` at
minimal hop count, ties broken by insertion-order neighbor iteration,
rather than a path to one fixed hardcoded pin key.  Used only to compare
the spec policy against the behavior of `validate_feature_change`. -/
def spec_resolve_power_path (g : DiGraph) (load_node_id : String) :
    Option (List String) :=
  if (g.get_node load_node_id).isNone then none
  else bfs_pin g (g.nodes.length + 1) [[load_node_id]] [load_node_id]

/-! ## Auxiliary concrete datasets used to settle the claims -/

/-- A second ECU descriptor with one pin (`"Aux_ECU:Pin1"`, rated 10 A). -/
def aux_specs : EcuSpec :=
  { ecu_id := "Aux_ECU",
    pins := [
      { pin_number := "Pin1", function := "Aux_Feed", type := "HSD",
        max_current_amps := 10, voltage_ref := 12 }] }

/-- A netlist wiring load `"L2"` directly to pin `"Aux_ECU:Pin1"` (one
hop) and, through splice `"S2"`, to `"BCM_Gen2:Pin4"` (two hops). -/
def netlist2 : List Connection :=
  [ { from_ := "L2", to_ := "Aux_ECU:Pin1", gauge := 18,
      length_m := 0.3, resistance_per_m := 0.021 },
    { from_ := "L2", to_ := "S2", gauge := 18,
      length_m := 0.4, resistance_per_m := 0.021 },
    { from_ := "S2", to_ := "BCM_Gen2:Pin4", gauge := 18,
      length_m := 0.6, resistance_per_m := 0.021 } ]

/-- Twin with two ECUs: the nearest Pin to `"L2"` is `"Aux_ECU:Pin1"`. -/
def twin2 : DiGraph :=
  load_harness_netlist
    (load_ecu_specs (load_ecu_specs DiGraph.empty bcm_specs) aux_specs)
    netlist2

/-- A twin holding only two wired generic nodes and no pin at all; in
particular the hardcoded target key `"BCM_Gen2:Pin4"` is absent. -/
def twin3 : DiGraph :=
  load_harness_netlist DiGraph.empty
    [ { from_ := "X", to_ := "Y", gauge := 18,
        length_m := 1, resistance_per_m := 0.02 } ]

/-- A twin where the BCM specs are loaded (so `"BCM_Gen2:Pin4"` exists)
but the wired component `{X, Y}` is disconnected from every pin. -/
def twin4 : DiGraph :=
  load_harness_netlist (load_ecu_specs DiGraph.empty bcm_specs)
    [ { from_ := "X", to_ := "Y", gauge := 18,
        length_m := 1, resistance_per_m := 0.02 } ]

/-! ## Association-list lemmas -/

theorem lookupA_updA_self {κ α : Type} [DecidableEq κ] (k : κ) (f : α → α)
    (d : α) (l : List (κ × α)) :
    lookupA k (updA k f d l) = some (f (((lookupA k l).getD d))) := by
  induction l with
  | nil => simp [lookupA, updA]
  | cons hd tl ih =>
    obtain ⟨k₂, v⟩ := hd
    by_cases h : k₂ = k
    · subst h
      simp [lookupA, updA]
    · simp [lookupA, updA, h, ih]

theorem lookupA_updA_ne {κ α : Type} [DecidableEq κ] {k k₂ : κ} (f : α → α)
    (d : α) (l : List (κ × α)) (h : k₂ ≠ k) :
    lookupA k₂ (updA k f d l) = lookupA k₂ l := by
  induction l with
  | nil => simp [lookupA, updA, Ne.symm h]
  | cons hd tl ih =>
    obtain ⟨k₃, v⟩ := hd
    by_cases h₃ : k₃ = k
    · subst h₃
      simp [lookupA, updA, Ne.symm h]
    · by_cases h₄ : k₃ = k₂ <;> simp [lookupA, updA, h, h₃, h₄, ih]

theorem updA_keys {κ α : Type} [DecidableEq κ] (k : κ) (f : α → α) (d : α)
    (l : List (κ × α)) :
    (updA k f d l).map Prod.fst =
      if k ∈ l.map Prod.fst then l.map Prod.fst else l.map Prod.fst ++ [k] := by
  induction l with
  | nil => simp [updA]
  | cons hd tl ih =>
    obtain ⟨k₂, v⟩ := hd
    by_cases h : k₂ = k
    · subst h
      simp [updA]
    · by_cases hm : k ∈ tl.map Prod.fst <;>
        simp [updA, h, Ne.symm h, hm, ih]

theorem updA_keys_nodup {κ α : Type} [DecidableEq κ] (k : κ) (f : α → α)
    (d : α) (l : List (κ × α)) (h : (l.map Prod.fst).Nodup) :
    ((updA k f d l).map Prod.fst).Nodup := by
  rw [updA_keys]
  by_cases hm : k ∈ l.map Prod.fst
  · simpa [hm] using h
  · simp [hm, List.nodup_append, h]

/-! ## Graph-store lemmas -/

theorem get_edge_data_add_edge_self (g : DiGraph) (u v : String)
    (a : EdgeAttrs) :
    (g.add_edge u v a).get_edge_data u v =
      some ((((g.get_edge_data u v)).getD {}).update a) := by
  simp [DiGraph.add_edge, DiGraph.get_edge_data, DiGraph.ensure_node,
    lookupA_updA_self]

theorem get_edge_data_add_edge_ne (g : DiGraph) {x y u v : String}
    (a : EdgeAttrs) (h : (x, y) ≠ (u, v)) :
    (g.add_edge u v a).get_edge_data x y = g.get_edge_data x y := by
  simp [DiGraph.add_edge, DiGraph.get_edge_data, DiGraph.ensure_node,
    lookupA_updA_ne _ _ _ h]

theorem add_edge_keys_nodup (g : DiGraph) (u v : String) (a : EdgeAttrs)
    (h : (g.edges.map Prod.fst).Nodup) :
    (((g.add_edge u v a).edges).map Prod.fst).Nodup := by
  simp only [DiGraph.add_edge, DiGraph.ensure_node]
  exact updA_keys_nodup _ _ _ _ h

theorem phys_update_wire (x : EdgeAttrs) (c : Connection) :
    phys (x.update (wire_props c)) = physTriple c := by
  simp [phys, EdgeAttrs.update, wire_props, physTriple]

theorem load_connection_physAt_fwd (g : DiGraph) (c : Connection) :
    physAt (load_connection g c) c.from_ c.to_ = some (physTriple c) := by
  unfold load_connection physAt
  by_cases h : c.from_ = c.to_
  · rw [h, get_edge_data_add_edge_self]
    simp [phys_update_wire]
  · rw [get_edge_data_add_edge_ne _ _ (by simp [Ne.symm h]),
      get_edge_data_add_edge_self]
    simp [phys_update_wire]

theorem load_connection_physAt_bwd (g : DiGraph) (c : Connection) :
    physAt (load_connection g c) c.to_ c.from_ = some (physTriple c) := by
  unfold load_connection physAt
  rw [get_edge_data_add_edge_self]
  simp [phys_update_wire]

/-- Symmetric-edge property for an ordered pair: the forward edge exists
and its physical attributes coincide with the backward ones. -/
def SymEdge (g : DiGraph) (u v : String) : Prop :=
  (physAt g u v).isSome = true ∧ physAt g u v = physAt g v u

theorem load_connection_physAt_other (g : DiGraph) (c : Connection)
    {u v : String} (h1 : (u, v) ≠ (c.from_, c.to_))
    (h2 : (u, v) ≠ (c.to_, c.from_)) :
    physAt (load_connection g c) u v = physAt g u v := by
  unfold load_connection physAt
  rw [get_edge_data_add_edge_ne _ _ h2, get_edge_data_add_edge_ne _ _ h1]

theorem load_connection_symEdge (g : DiGraph) (c : Connection) :
    SymEdge (load_connection g c) c.from_ c.to_ := by
  constructor
  · rw [load_connection_physAt_fwd]
    rfl
  · rw [load_connection_physAt_fwd, load_connection_physAt_bwd]

theorem load_connection_preserves_symEdge (g : DiGraph) (c : Connection)
    {u v : String} (h : SymEdge g u v) :
    SymEdge (load_connection g c) u v := by
  by_cases h1 : (u, v) = (c.from_, c.to_)
  · obtain ⟨hu, hv⟩ := Prod.mk.injEq .. ▸ h1
    subst hu; subst hv
    exact load_connection_symEdge g c
  · by_cases h2 : (u, v) = (c.to_, c.from_)
    · obtain ⟨hu, hv⟩ := Prod.mk.injEq .. ▸ h2
      subst hu; subst hv
      constructor
      · rw [load_connection_physAt_bwd]
        rfl
      · rw [load_connection_physAt_fwd, load_connection_physAt_bwd]
    · have h3 : (v, u) ≠ (c.from_, c.to_) := by
        intro hx
        apply h2
        obtain ⟨hu, hv⟩ := Prod.mk.injEq .. ▸ hx
        subst hu; subst hv
        rfl
      have h4 : (v, u) ≠ (c.to_, c.from_) := by
        intro hx
        apply h1
        obtain ⟨hu, hv⟩ := Prod.mk.injEq .. ▸ hx
        subst hu; subst hv
        rfl
      unfold SymEdge
      rw [load_connection_physAt_other g c h1 h2,
        load_connection_physAt_other g c h3 h4]
      exact h

theorem foldl_preserves_symEdge (l : List Connection) (g : DiGraph)
    {u v : String} (h : SymEdge g u v) :
    SymEdge (List.foldl load_connection g l) u v := by
  induction l generalizing g with
  | nil => exact h
  | cons a tl ih => exact ih _ (load_connection_preserves_symEdge g a h)

theorem mem_netlist_symEdge (l : List Connection) (g : DiGraph)
    (c : Connection) (hc : c ∈ l) :
    SymEdge (List.foldl load_connection g l) c.from_ c.to_ := by
  induction l generalizing g with
  | nil => cases hc
  | cons a tl ih =>
    rcases List.mem_cons.mp hc with h | h
    · subst h
      exact foldl_preserves_symEdge tl _ (load_connection_symEdge g c)
    · exact ih _ h

/-! ## Resistance-accumulation lemmas -/

/-- Every consecutive edge of the pair list is present and is either an
`INTERNAL` edge or carries both wire attributes the loop reads; this is
the domain on which the resistance loop cannot raise. -/
def edges_ok (g : DiGraph) (pairs : List (String × String)) : Bool :=
  pairs.all fun pr =>
    match g.get_edge_data pr.1 pr.2 with
    | some e =>
        decide (e.type = some "INTERNAL") ||
          (e.resistance_ohm_per_m.isSome && e.length_m.isSome)
    | none => false

/-- Reference sum the spec describes: `resistance_per_m * length_m` over
the non-`INTERNAL` edges of the pair list, zero for `INTERNAL` edges. -/
def wire_sum (g : DiGraph) : List (String × String) → ℚ
  | [] => 0
  | pr :: rest =>
    (match g.get_edge_data pr.1 pr.2 with
     | some e =>
        if e.type = some "INTERNAL" then 0
        else (e.resistance_ohm_per_m.getD 0) * (e.length_m.getD 0)
     | none => 0) + wire_sum g rest

/-- `total_resistance` of a whole node path, the loop of lines 68-74 run
from accumulator `0` over the consecutive pairs. -/
def path_resistance (g : DiGraph) (path : List String) : Except String ℚ :=
  resistance_loop g (consecutivePairs path) 0

theorem resistance_loop_eq_wire_sum (g : DiGraph)
    (pairs : List (String × String)) (hok : edges_ok g pairs = true) :
    ∀ acc : ℚ, resistance_loop g pairs acc = .ok (acc + wire_sum g pairs) := by
  induction pairs with
  | nil => intro acc; simp [resistance_loop, wire_sum]
  | cons pr rest ih =>
    intro acc
    simp only [edges_ok, List.all_cons, Bool.and_eq_true] at hok
    obtain ⟨hhd, htl⟩ := hok
    obtain ⟨u, v⟩ := pr
    cases hedge : g.get_edge_data u v with
    | none => rw [hedge] at hhd; cases hhd
    | some e =>
      rw [hedge] at hhd
      by_cases hint : e.type = some "INTERNAL"
      · rw [resistance_loop, hedge]
        simp only [hint, if_true]
        rw [ih htl acc, wire_sum, hedge]
        simp [hint]
      · have hd : decide (e.type = some "INTERNAL") = false := decide_eq_false hint
        simp only [hd, Bool.false_or, Bool.and_eq_true,
          Option.isSome_iff_exists] at hhd
        obtain ⟨⟨r, hr⟩, ⟨len, hl⟩⟩ := hhd
        rw [resistance_loop, hedge]
        simp only [hint, if_false, hr, hl]
        rw [ih htl (acc + r * len), wire_sum, hedge]
        simp only [hint, if_false, hr, hl, Option.getD_some]
        congr 1
        ring

theorem resistance_loop_append (g : DiGraph)
    (l₁ l₂ : List (String × String)) :
    ∀ acc : ℚ, resistance_loop g (l₁ ++ l₂) acc =
      match resistance_loop g l₁ acc with
      | .ok m => resistance_loop g l₂ m
      | .error e => .error e := by
  induction l₁ with
  | nil => intro acc; simp [resistance_loop]
  | cons pr rest ih =>
    intro acc
    obtain ⟨u, v⟩ := pr
    cases hedge : g.get_edge_data u v with
    | none => simp [resistance_loop, hedge]
    | some e =>
      by_cases hint : e.type = some "INTERNAL"
      · simp [resistance_loop, hedge, hint, ih]
      · cases hr : e.resistance_ohm_per_m with
        | none => simp [resistance_loop, hedge, hint, hr]
        | some r =>
          cases hl : e.length_m with
          | none => simp [resistance_loop, hedge, hint, hr, hl]
          | some len => simp [resistance_loop, hedge, hint, hr, hl, ih]

theorem resistance_loop_shift (g : DiGraph) (l : List (String × String)) :
    ∀ acc : ℚ, resistance_loop g l acc =
      (resistance_loop g l 0).map (fun s => acc + s) := by
  induction l with
  | nil => intro acc; simp [resistance_loop, Except.map]
  | cons pr rest ih =>
    intro acc
    obtain ⟨u, v⟩ := pr
    cases hedge : g.get_edge_data u v with
    | none => simp [resistance_loop, hedge, Except.map]
    | some e =>
      by_cases hint : e.type = some "INTERNAL"
      · simp only [resistance_loop, hedge, hint, if_true]
        exact ih acc
      · cases hr : e.resistance_ohm_per_m with
        | none => simp [resistance_loop, hedge, hint, hr, Except.map]
        | some r =>
          cases hl : e.length_m with
          | none => simp [resistance_loop, hedge, hint, hr, hl, Except.map]
          | some len =>
            simp only [resistance_loop, hedge, hint, if_false, hr, hl]
            rw [ih (acc + r * len), ih (0 + r * len)]
            cases resistance_loop g rest 0 with
            | error e => rfl
            | ok s =>
              simp only [Except.map]
              congr 1
              ring

theorem consecutivePairs_append {A B : List String} {x : String}
    (hA : A.getLast? = some x) (hB : B.head? = some x) :
    consecutivePairs (A ++ B.tail) =
      consecutivePairs A ++ consecutivePairs B := by
  induction A with
  | nil => cases hA
  | cons a rest ih =>
    cases rest with
    | nil =>
      simp only [List.getLast?_singleton, Option.some.injEq] at hA
      subst hA
      cases B with
      | nil => cases hB
      | cons b tl =>
        simp only [List.head?_cons, Option.some.injEq] at hB
        subst hB
        simp [consecutivePairs]
    | cons a₂ rest₂ =>
      rw [List.getLast?_cons_cons] at hA
      have h2 := ih hA
      have hstep : consecutivePairs ((a :: a₂ :: rest₂) ++ B.tail) =
          (a, a₂) :: consecutivePairs ((a₂ :: rest₂) ++ B.tail) := rfl
      have hstep2 : consecutivePairs (a :: a₂ :: rest₂) =
          (a, a₂) :: consecutivePairs (a₂ :: rest₂) := rfl
      rw [hstep, hstep2, h2, List.cons_append]

/-- Whenever `validate_feature_change` returns a verdict, its `checks`
list holds exactly the two rule outcomes, each determined solely by its
own comparison (Rule A by the requested current against the pin capacity,
Rule B by the voltage drop against 0.5 V). -/
theorem validate_checks_shape (g : DiGraph) (id : String) (amps : ℚ)
    (r : Results) (h : validate_feature_change g id amps = .ok r) :
    r.checks =
      [(if amps > r.pin_capacity then "FAIL: Pin Overcurrent"
        else "PASS: Current OK"),
       (if r.voltage_drop > 0.5 then "FAIL: Voltage Drop High"
        else "PASS: Voltage Drop OK")] := by
  unfold validate_feature_change at h
  cases hsp : shortest_path g id "BCM_Gen2:Pin4" with
  | error e =>
    rw [hsp] at h
    cases e <;> simp at h
  | ok path =>
    rw [hsp] at h
    cases hn : g.get_node (path.getLastD "") with
    | none =>
      simp only [hn] at h
      cases h
    | some pin_specs =>
      simp only [hn] at h
      cases hrl : resistance_loop g (consecutivePairs path) 0 with
      | error exc =>
        simp only [hrl] at h
        cases h
      | ok total_resistance =>
        simp only [hrl] at h
        cases hmc : pin_specs.max_current with
        | none =>
          simp only [hmc] at h
          cases h
        | some max_current =>
          simp only [hmc] at h
          cases h
          rfl

/-- Equality of `Except` results is decidable componentwise. -/
instance {ε α : Type} [DecidableEq ε] [DecidableEq α] :
    DecidableEq (Except ε α) := fun x y =>
  match x, y with
  | .error a, .error b =>
    if h : a = b then .isTrue (by rw [h])
    else .isFalse (fun hx => h (by cases hx; rfl))
  | .ok a, .ok b =>
    if h : a = b then .isTrue (by rw [h])
    else .isFalse (fun hx => h (by cases hx; rfl))
  | .error _, .ok _ => .isFalse (fun hx => Except.noConfusion hx)
  | .ok _, .error _ => .isFalse (fun hx => Except.noConfusion hx)

/-! ## Claim theorems -/

/-- C1: evaluation of the code at the failing input `twin2` with load
`"L2"`.  Path resolution succeeds and returns the two-hop path to the
hardcoded target `"BCM_Gen2:Pin4"` even though `"Aux_ECU:Pin1"` is a
`PIN`-kind node one hop from the load — the nearest Pin, and the result
of the spec policy `spec_resolve_power_path`.  The resolved path
therefore does not end at the nearest reachable Pin node, contradicting
both the claim and the comments of the source itself. -/
theorem c1_hardcoded_target_eval :
    shortest_path twin2 "L2" "BCM_Gen2:Pin4" =
      Except.ok ["L2", "S2", "BCM_Gen2:Pin4"] ∧
    validate_feature_change twin2 "L2" 1 =
      ValidationResult.ok
        { target_pin := "BCM_Gen2:Pin4", load_request := 1, pin_capacity := 5,
          voltage_drop := 0.021,
          checks := ["PASS: Current OK", "PASS: Voltage Drop OK"] } ∧
    node_type twin2 "Aux_ECU:Pin1" = some "PIN" ∧
    (twin2.get_edge_data "L2" "Aux_ECU:Pin1").isSome = true ∧
    spec_resolve_power_path twin2 "L2" = some ["L2", "Aux_ECU:Pin1"] ∧
    ("Aux_ECU:Pin1" : String) ≠ "BCM_Gen2:Pin4" := by
  refine ⟨by decide, by with_unfolding_all decide, by decide, by decide,
    by decide, by decide⟩

/-- C2, counterexample: a query on a load node id absent from the graph
(`"Ghost"` is not in `twin`) does not report an error value — it crashes
with the uncaught `NodeNotFound` exception, refuting the claim that such
a query reports an `UnknownNode` error without crashing. -/
theorem c2_unknown_node_counterexample :
    twin.get_node "Ghost" = none ∧
    validate_feature_change twin "Ghost" 1 =
      ValidationResult.crash "NodeNotFound" := by
  refine ⟨by decide, by decide⟩

/-- C2, amended: every query on a load node id absent from the graph
raises the uncaught `NodeNotFound` exception (a crash), an outcome
distinct from the caught no-path failure dict. -/
theorem c2_unknown_node_crash (g : DiGraph) (id : String) (amps : ℚ)
    (h : g.get_node id = none) :
    validate_feature_change g id amps = ValidationResult.crash "NodeNotFound" ∧
    ValidationResult.crash "NodeNotFound" ≠
      ValidationResult.failNoPath "FAIL" "No path to power source found." := by
  constructor
  · unfold validate_feature_change shortest_path
    rw [h]
    simp
  · simp

/-- Witness for `c2_unknown_node_crash` at `twin` and `"Ghost"`. -/
theorem c2_unknown_node_crash_witness :
    validate_feature_change twin "Ghost" 1 =
      ValidationResult.crash "NodeNotFound" ∧
    ValidationResult.crash "NodeNotFound" ≠
      ValidationResult.failNoPath "FAIL" "No path to power source found." :=
  c2_unknown_node_crash twin "Ghost" 1 (by decide)

/-- C3, counterexample: in `twin3` the load node `"X"` exists and no node
of the graph is of kind `PIN` (so no Pin is reachable), yet the query
crashes with the uncaught `NodeNotFound` exception — because the
hardcoded target key `"BCM_Gen2:Pin4"` is absent — instead of returning
the no-power-path failure result the claim promises. -/
theorem c3_no_pin_counterexample :
    (twin3.get_node "X").isSome = true ∧
    twin3.nodes.all (fun p => p.2.type != some "PIN") = true ∧
    validate_feature_change twin3 "X" 1 =
      ValidationResult.crash "NodeNotFound" ∧
    ValidationResult.crash "NodeNotFound" ≠
      ValidationResult.failNoPath "FAIL" "No path to power source found." := by
  refine ⟨by decide, by decide, by decide, by decide⟩

/-- C3, amended: when the load node exists, the hardcoded target node
`"BCM_Gen2:Pin4"` also exists, and no path connects them, the query
returns the caught failure result (no verdict, no physics); when the
target key itself is absent the query instead crashes. -/
theorem c3_no_path_failure (g : DiGraph) (id : String) (amps : ℚ)
    (h1 : (g.get_node id).isSome = true)
    (h2 : (g.get_node "BCM_Gen2:Pin4").isSome = true)
    (h3 : shortest_path g id "BCM_Gen2:Pin4" = Except.error PathError.noPath) :
    validate_feature_change g id amps =
      ValidationResult.failNoPath "FAIL" "No path to power source found." := by
  unfold validate_feature_change
  rw [h3]

/-- Witness for `c3_no_path_failure` at `twin4` (specs loaded, the wired
component `{X, Y}` disconnected from every pin) and load `"X"`. -/
theorem c3_no_path_failure_witness :
    validate_feature_change twin4 "X" 1 =
      ValidationResult.failNoPath "FAIL" "No path to power source found." :=
  c3_no_path_failure twin4 "X" 1 (by decide) (by decide) (by decide)

/-- C4, counterexample: a record violating all three range conditions
(`gauge = 0`, `length_m = -1`, `resistance_per_m = -0.5`) is loaded by
the Netlist Loader without any error — both directed edges exist
afterwards and carry the out-of-range values — refuting the claim that
such records fail with `MalformedWire` (no such error exists in the
code, and the loader is total). -/
theorem c4_malformed_wire_counterexample :
    physAt (load_harness_netlist DiGraph.empty
        [{ from_ := "A", to_ := "B", gauge := 0, length_m := -1,
           resistance_per_m := -0.5 }]) "A" "B" =
      some (some 0, some (-1), some (-0.5)) ∧
    physAt (load_harness_netlist DiGraph.empty
        [{ from_ := "A", to_ := "B", gauge := 0, length_m := -1,
           resistance_per_m := -0.5 }]) "B" "A" =
      some (some 0, some (-1), some (-0.5)) := by
  refine ⟨by with_unfolding_all decide, by with_unfolding_all decide⟩

/-- C4, amended: the Netlist Loader performs no range validation and
cannot fail; a record with negative `length_m`, negative
`resistance_per_m` or non-positive gauge is inserted (in both
directions, with exactly its attribute values) like any other record. -/
theorem c4_no_range_validation (g : DiGraph) (c : Connection)
    (h : c.length_m < 0 ∨ c.resistance_per_m < 0 ∨ c.gauge ≤ 0) :
    physAt (load_harness_netlist g [c]) c.from_ c.to_ = some (physTriple c) ∧
    physAt (load_harness_netlist g [c]) c.to_ c.from_ = some (physTriple c) :=
  ⟨load_connection_physAt_fwd g c, load_connection_physAt_bwd g c⟩

/-- Witness for `c4_no_range_validation` at a record of length -2 m. -/
theorem c4_no_range_validation_witness :
    physAt (load_harness_netlist DiGraph.empty
        [{ from_ := "A", to_ := "B", gauge := 18, length_m := -2,
           resistance_per_m := 0.02 }]) "A" "B" =
      some (some 18, some (-2), some 0.02) ∧
    physAt (load_harness_netlist DiGraph.empty
        [{ from_ := "A", to_ := "B", gauge := 18, length_m := -2,
           resistance_per_m := 0.02 }]) "B" "A" =
      some (some 18, some (-2), some 0.02) :=
  c4_no_range_validation DiGraph.empty
    { from_ := "A", to_ := "B", gauge := 18, length_m := -2,
      resistance_per_m := 0.02 }
    (Or.inl (by norm_num))

/-- C5: for every connection record of the loaded netlist, after
`load_harness_netlist` the directed edge `from -> to` exists, and its
physical attribute triple (gauge, length, resistance per metre) is
identical to that of the mirror edge `to -> from`. -/
theorem c5_bidirectional_edges (g : DiGraph) (netlist : List Connection)
    (c : Connection) (hc : c ∈ netlist) :
    (physAt (load_harness_netlist g netlist) c.from_ c.to_).isSome = true ∧
    physAt (load_harness_netlist g netlist) c.from_ c.to_ =
      physAt (load_harness_netlist g netlist) c.to_ c.from_ :=
  mem_netlist_symEdge netlist g c hc

/-- Witness for `c5_bidirectional_edges` at the first record of the
source netlist, loaded into `twin`. -/
theorem c5_bidirectional_edges_witness :
    (physAt twin "BCM_Gen2:Pin4" "Splice_A22").isSome = true ∧
    physAt twin "BCM_Gen2:Pin4" "Splice_A22" =
      physAt twin "Splice_A22" "BCM_Gen2:Pin4" :=
  c5_bidirectional_edges (load_ecu_specs DiGraph.empty bcm_specs) harness_data
    { from_ := "BCM_Gen2:Pin4", to_ := "Splice_A22", gauge := 18,
      length_m := 1.5, resistance_per_m := 0.021 }
    (by with_unfolding_all decide)

/-- C6, counterexample: on the Scenario-1 path the evaluator computes a
total resistance of 0.0486 ohm and, at 4.0 A, a voltage drop of 0.1944 V
— not the 0.0483 ohm and 0.1932 V asserted by the claim (the sum
`1.5*0.021 + 0.5*0.021 + 0.2*0.033` is 0.0486, not 0.0483). -/
theorem c6_resistance_value_counterexample :
    path_resistance twin
        ["Lamp_Fog_L", "Conn_Fog_L", "Splice_A22", "BCM_Gen2:Pin4"] =
      Except.ok 0.0486 ∧
    (0.0486 : ℚ) ≠ 0.0483 ∧
    validate_feature_change twin "Lamp_Fog_L" 4 =
      ValidationResult.ok
        { target_pin := "BCM_Gen2:Pin4", load_request := 4, pin_capacity := 5,
          voltage_drop := 0.1944,
          checks := ["PASS: Current OK", "PASS: Voltage Drop OK"] } ∧
    (0.1944 : ℚ) ≠ 0.1932 := by
  refine ⟨?_, by norm_num, ?_, by norm_num⟩
  · conv_lhs => whnf
    norm_num [Except.ok.injEq]
  · conv_lhs => whnf
    simp only [ValidationResult.ok.injEq, Results.mk.injEq]
    norm_num

/-- C6, amended: on every path whose consecutive edges all exist and are
each `INTERNAL` or wire-attributed, the evaluator total resistance is the
sum of `resistance_per_m * length_m` over exactly the non-`INTERNAL`
(wire) edges, `INTERNAL` edges contributing zero; on the Scenario-1 path
this gives 0.0486 ohm and, at 4.0 A, a 0.1944 V drop with both rules
passing. -/
theorem c6_resistance_sum :
    (∀ (g : DiGraph) (path : List String),
        edges_ok g (consecutivePairs path) = true →
        path_resistance g path =
          Except.ok (wire_sum g (consecutivePairs path))) ∧
    path_resistance twin
        ["Lamp_Fog_L", "Conn_Fog_L", "Splice_A22", "BCM_Gen2:Pin4"] =
      Except.ok 0.0486 ∧
    validate_feature_change twin "Lamp_Fog_L" 4 =
      ValidationResult.ok
        { target_pin := "BCM_Gen2:Pin4", load_request := 4, pin_capacity := 5,
          voltage_drop := 0.1944,
          checks := ["PASS: Current OK", "PASS: Voltage Drop OK"] } := by
  refine ⟨?_, ?_, ?_⟩
  · intro g path hok
    have h := resistance_loop_eq_wire_sum g (consecutivePairs path) hok 0
    rw [path_resistance, h, zero_add]
  · conv_lhs => whnf
    norm_num [Except.ok.injEq]
  · conv_lhs => whnf
    simp only [ValidationResult.ok.injEq, Results.mk.injEq]
    norm_num

/-- Witness for the universally quantified part of `c6_resistance_sum`,
instantiated on the Scenario-1 path inside `twin`. -/
theorem c6_resistance_sum_witness :
    edges_ok twin (consecutivePairs
        ["Lamp_Fog_L", "Conn_Fog_L", "Splice_A22", "BCM_Gen2:Pin4"]) = true ∧
    path_resistance twin
        ["Lamp_Fog_L", "Conn_Fog_L", "Splice_A22", "BCM_Gen2:Pin4"] =
      Except.ok (wire_sum twin (consecutivePairs
        ["Lamp_Fog_L", "Conn_Fog_L", "Splice_A22", "BCM_Gen2:Pin4"])) :=
  ⟨by decide, c6_resistance_sum.1 twin
    ["Lamp_Fog_L", "Conn_Fog_L", "Splice_A22", "BCM_Gen2:Pin4"] (by decide)⟩

/-- C7, counterexample: Scenario 2 (the Scenario-1 path at 10.0 A) does
produce one FAIL (Rule A) and one PASS (Rule B), but the voltage drop is
0.486 V, not the 0.483 V asserted by the claim. -/
theorem c7_voltage_value_counterexample :
    validate_feature_change twin "Lamp_Fog_L" 10 =
      ValidationResult.ok
        { target_pin := "BCM_Gen2:Pin4", load_request := 10, pin_capacity := 5,
          voltage_drop := 0.486,
          checks := ["FAIL: Pin Overcurrent", "PASS: Voltage Drop OK"] } ∧
    (0.486 : ℚ) ≠ 0.483 := by
  refine ⟨?_, by norm_num⟩
  conv_lhs => whnf
  simp only [ValidationResult.ok.injEq, Results.mk.injEq]
  norm_num

/-- C7, amended: every verdict holds exactly the two rule outcomes,
Rule A failing iff the requested current exceeds the pin capacity and
Rule B failing iff the voltage drop exceeds 0.5 V, each computed from its
own comparison alone (no short-circuit); Scenario 2 at 10.0 A yields
Rule A FAIL (10 > 5), Rule B PASS (voltage drop 0.486 ≤ 0.5). -/
theorem c7_independent_rules :
    (∀ (g : DiGraph) (id : String) (amps : ℚ) (r : Results),
        validate_feature_change g id amps = ValidationResult.ok r →
        r.checks =
          [(if amps > r.pin_capacity then "FAIL: Pin Overcurrent"
            else "PASS: Current OK"),
           (if r.voltage_drop > 0.5 then "FAIL: Voltage Drop High"
            else "PASS: Voltage Drop OK")]) ∧
    validate_feature_change twin "Lamp_Fog_L" 10 =
      ValidationResult.ok
        { target_pin := "BCM_Gen2:Pin4", load_request := 10, pin_capacity := 5,
          voltage_drop := 0.486,
          checks := ["FAIL: Pin Overcurrent", "PASS: Voltage Drop OK"] } ∧
    ((10 : ℚ) > 5) ∧ ((0.486 : ℚ) ≤ 0.5) := by
  refine ⟨validate_checks_shape, ?_, by norm_num, by norm_num⟩
  conv_lhs => whnf
  simp only [ValidationResult.ok.injEq, Results.mk.injEq]
  norm_num

/-- Witness for the universally quantified part of
`c7_independent_rules`, instantiated on the Scenario-2 verdict. -/
theorem c7_independent_rules_witness :
    ({ target_pin := "BCM_Gen2:Pin4", load_request := 10, pin_capacity := 5,
       voltage_drop := 0.486,
       checks := ["FAIL: Pin Overcurrent", "PASS: Voltage Drop OK"] }
        : Results).checks =
      [(if (10 : ℚ) > 5 then "FAIL: Pin Overcurrent" else "PASS: Current OK"),
       (if (0.486 : ℚ) > 0.5 then "FAIL: Voltage Drop High"
        else "PASS: Voltage Drop OK")] :=
  c7_independent_rules.1 twin "Lamp_Fog_L" 10
    { target_pin := "BCM_Gen2:Pin4", load_request := 10, pin_capacity := 5,
      voltage_drop := 0.486,
      checks := ["FAIL: Pin Overcurrent", "PASS: Voltage Drop OK"] }
    c7_independent_rules.2.1

/-- C8: resistance accumulation is additive under path concatenation:
whenever path A ends at the node that starts path B and the evaluator
loop succeeds on both, it succeeds on the concatenation A ++ tail of B
with the sum of the two resistances. -/
theorem c8_concat_additive (g : DiGraph) (A B : List String) (x : String)
    (ra rb : ℚ) (hA : A.getLast? = some x) (hB : B.head? = some x)
    (hra : path_resistance g A = Except.ok ra)
    (hrb : path_resistance g B = Except.ok rb) :
    path_resistance g (A ++ B.tail) = Except.ok (ra + rb) := by
  unfold path_resistance at hra hrb ⊢
  rw [consecutivePairs_append hA hB, resistance_loop_append g _ _ 0, hra]
  show resistance_loop g (consecutivePairs B) ra = Except.ok (ra + rb)
  rw [resistance_loop_shift g _ ra, hrb]
  rfl

/-- Witness for `c8_concat_additive`: the Scenario-1 path split at
`"Conn_Fog_L"` into a 0.0066-ohm prefix and a 0.042-ohm suffix. -/
theorem c8_concat_additive_witness :
    path_resistance twin
        (["Lamp_Fog_L", "Conn_Fog_L"] ++
          ["Conn_Fog_L", "Splice_A22", "BCM_Gen2:Pin4"].tail) =
      Except.ok (0.0066 + 0.042) :=
  c8_concat_additive twin ["Lamp_Fog_L", "Conn_Fog_L"]
    ["Conn_Fog_L", "Splice_A22", "BCM_Gen2:Pin4"] "Conn_Fog_L" 0.0066 0.042
    (by decide) (by decide)
    (by conv_lhs => whnf
        norm_num [Except.ok.injEq])
    (by conv_lhs => whnf
        norm_num [Except.ok.injEq])

/-- C9: a validation query leaves the graph unchanged — the state-passing
view of the method returns the input graph as its state component, and
its result component is the pure `validate_feature_change`; node and edge
creation exists only in the loaders. -/
theorem c9_validate_readonly (g : DiGraph) (id : String) (amps : ℚ) :
    (validate_feature_change_st g id amps).1 = g ∧
    (validate_feature_change_st g id amps).2 =
      validate_feature_change g id amps :=
  ⟨rfl, rfl⟩

/-- C10: the edge table of the graph keeps at most one directed edge per
ordered key pair (key uniqueness is preserved by loading), and loading a
second record between the same endpoints leaves that edge carrying
exactly the second record's physical attributes — an overwrite, not a
parallel edge or an accumulation. -/
theorem c10_edge_overwrite (g : DiGraph) (r₁ r₂ : Connection)
    (h1 : r₁.from_ = r₂.from_) (h2 : r₁.to_ = r₂.to_)
    (hnd : (g.edges.map Prod.fst).Nodup) :
    ((load_harness_netlist g [r₁, r₂]).edges.map Prod.fst).Nodup ∧
    physAt (load_harness_netlist g [r₁, r₂]) r₂.from_ r₂.to_ =
      some (physTriple r₂) := by
  constructor
  · exact add_edge_keys_nodup _ _ _ _ (add_edge_keys_nodup _ _ _ _
      (add_edge_keys_nodup _ _ _ _ (add_edge_keys_nodup _ _ _ _ hnd)))
  · exact load_connection_physAt_fwd (load_connection g r₁) r₂

/-- Witness for `c10_edge_overwrite`: two records between `"A"` and
`"B"`; after loading, the edge carries the second record's values
(gauge 16, 2 m, 0.05 ohm per metre). -/
theorem c10_edge_overwrite_witness :
    ((load_harness_netlist DiGraph.empty
        [{ from_ := "A", to_ := "B", gauge := 18, length_m := 1,
           resistance_per_m := 0.02 },
         { from_ := "A", to_ := "B", gauge := 16, length_m := 2,
           resistance_per_m := 0.05 }]).edges.map Prod.fst).Nodup ∧
    physAt (load_harness_netlist DiGraph.empty
        [{ from_ := "A", to_ := "B", gauge := 18, length_m := 1,
           resistance_per_m := 0.02 },
         { from_ := "A", to_ := "B", gauge := 16, length_m := 2,
           resistance_per_m := 0.05 }]) "A" "B" =
      some (some 16, some 2, some 0.05) :=
  c10_edge_overwrite DiGraph.empty
    { from_ := "A", to_ := "B", gauge := 18, length_m := 1,
      resistance_per_m := 0.02 }
    { from_ := "A", to_ := "B", gauge := 16, length_m := 2,
      resistance_per_m := 0.05 }
    rfl rfl (by decide)
